import Mathlib

/-!
Verification of the Mini-Torero-Server sources.

This file gives a shallow embedding of the two components of the repository:

* `BoundedBuffer.cpp` / `BoundedBuffer.hpp` — a fixed-capacity blocking queue
  of `int` connection handles.  Each operation runs under the buffer's mutex,
  so a concurrent execution is an interleaving of atomic `putItem`/`getItem`
  calls; we model it as a trace of events over a step relation whose guards
  are the negations of the condition-variable wait predicates (a call
  proceeds exactly when its `while`-wait loop exits).

* `torero-serve.cpp` — the per-connection request pipeline `handleClient`
  and the response-formatting helpers.  Socket writes are modelled as a list
  of emitted `NetAction`s (`send` with the exact bytes, or `close`); the
  filesystem is an explicit finite map consulted by the same predicates the
  code calls (`fileExists`, `is_directory`, `file_size`, directory listing).

All strings are modelled as `List Char` (the code stores single-byte data in
`std::string`).
-/

/-- Characters of a Lean string literal, used to transcribe the C++ string
literals byte-for-byte. -/
def str (s : String) : List Char := s.data

/-- Decimal rendering of a number, as produced by `std::to_string` and by
streaming an integer into a `std::stringstream`. -/
def natRepr (n : Nat) : List Char := (Nat.repr n).data

/- ----------------------------------------------------------------- -/
/- BoundedBuffer.cpp                                                  -/
/- ----------------------------------------------------------------- -/

/-- State of a `BoundedBuffer` object: the fields of the C++ class
(`count`, `head`, `tail` public; `capacity` and the `std::queue<int> buffer`
private).  The mutex and condition variables have no data content; they are
reflected in the guards of the step relation below. -/
structure BoundedBuffer where
  count : Int
  head : Int
  tail : Int
  capacity : Int
  buffer : List Int
deriving Repr, DecidableEq

/-- Constructor `BoundedBuffer::BoundedBuffer(int max_size)`: capacity is set to
`max_size`, `count`, `head` and `tail` start at zero, the queue is empty. -/
def BoundedBuffer.init (max_size : Int) : BoundedBuffer :=
  { count := 0, head := 0, tail := 0, capacity := max_size, buffer := [] }

/-- Operation `BoundedBuffer::putItem` after its wait loop has exited (so under the
precondition `count ≠ capacity`): increment `count`, push the item at the
back of the queue, advance `head` with wrap-around at `capacity`. -/
def BoundedBuffer.putItem (b : BoundedBuffer) (new_item : Int) : BoundedBuffer :=
  let count := b.count + 1
  let buffer := b.buffer ++ [new_item]
  let head := b.head + 1
  let head := if head == b.capacity then 0 else head
  { b with count := count, buffer := buffer, head := head }

/-- Operation `BoundedBuffer::getItem` after its wait loop has exited (so under the
precondition `count ≠ 0`): decrement `count`, read the queue's front
(`List.headI`; undefined behaviour of `std::queue::front` on an empty queue
never arises because the call is guarded), pop it, advance `tail` with
wrap-around.  Returns the item together with the new state. -/
def BoundedBuffer.getItem (b : BoundedBuffer) : Int × BoundedBuffer :=
  let count := b.count - 1
  let item := b.buffer.headI
  let buffer := b.buffer.tail
  let tail := b.tail + 1
  let tail := if tail == b.capacity then 0 else tail
  (item, { b with count := count, buffer := buffer, tail := tail })

/-- One observable event of a buffer history: a `putItem new_item` call, or a
`getItem` call recording the value it returned. -/
inductive Event where
  | put (x : Int)
  | get (x : Int)
deriving Repr, DecidableEq

/-- Atomic step of the buffer.  A `putItem` call completes only when its
`while(count == capacity)` wait loop has exited, a `getItem` call only when
its `while(count == 0)` wait loop has exited; the mutex makes the body
atomic. -/
inductive Step : BoundedBuffer → Event → BoundedBuffer → Prop where
  | put {b : BoundedBuffer} {x : Int} (h : b.count ≠ b.capacity) :
      Step b (.put x) (b.putItem x)
  | get {b : BoundedBuffer} (h : b.count ≠ 0) :
      Step b (.get (b.getItem).1) (b.getItem).2

/-- A history of completed `putItem`/`getItem` calls (any interleaving the
mutex can serialize). -/
inductive Steps : BoundedBuffer → List Event → BoundedBuffer → Prop where
  | nil {b : BoundedBuffer} : Steps b [] b
  | cons {b b₁ b₂ : BoundedBuffer} {e : Event} {es : List Event}
      (h : Step b e b₁) (hs : Steps b₁ es b₂) : Steps b (e :: es) b₂

/-- The values inserted by the `putItem` calls of a history, in order. -/
def putsOf : List Event → List Int
  | [] => []
  | .put x :: es => x :: putsOf es
  | .get _ :: es => putsOf es

/-- The values returned by the `getItem` calls of a history, in order. -/
def getsOf : List Event → List Int
  | [] => []
  | .put _ :: es => getsOf es
  | .get x :: es => x :: getsOf es

/-- The capacity-bound invariant of the buffer state. -/
def InBounds (b : BoundedBuffer) : Prop :=
  0 ≤ b.count ∧ b.count ≤ b.capacity

/-- Invariant tying the `count` field to the actual queue contents. -/
def Sync (b : BoundedBuffer) : Prop := b.count = b.buffer.length

/- ----------------------------------------------------------------- -/
/- torero-serve.cpp : filesystem collaborator                         -/
/- ----------------------------------------------------------------- -/

/-- Model of the filesystem the server is pointed at: regular files (full
path, byte content) and directories (full path, entry names in the order
`fs::directory_iterator` produces them).  The filesystem primitives the
server calls (`std::ifstream` open, `fs::is_directory`,
`fs::is_regular_file`, `fs::file_size`, `fs::directory_iterator`) are
lookups into this map. -/
structure FileSystem where
  files : List (List Char × List Char)
  dirs : List (List Char × List (List Char))

/-- Predicate `fs::is_regular_file(p)`. -/
def isRegularFile (fs : FileSystem) (p : List Char) : Bool :=
  fs.files.any (fun e => e.1 == p)

/-- Predicate `isDirectory(filename)` — `fs::is_directory(filename)`. -/
def isDirectory (fs : FileSystem) (p : List Char) : Bool :=
  fs.dirs.any (fun e => e.1 == p)

/-- Predicate `fileExists(filename)` — opens an `std::ifstream` and reports `good()`.
On the target platform opening succeeds whenever the path names an existing
regular file or directory (`open(2)` with `O_RDONLY` succeeds on a
directory). -/
def fileExists (fs : FileSystem) (p : List Char) : Bool :=
  isRegularFile fs p || isDirectory fs p

/-- Content of a regular file (the bytes an `std::ifstream` read loop
yields). -/
def lookupFile (fs : FileSystem) (p : List Char) : Option (List Char) :=
  (fs.files.find? (fun e => e.1 == p)).map (fun e => e.2)

/-- Entries of a directory in `fs::directory_iterator` order. -/
def lookupDir (fs : FileSystem) (p : List Char) : Option (List (List Char)) :=
  (fs.dirs.find? (fun e => e.1 == p)).map (fun e => e.2)

/-- Size `fs::file_size(p)` for an existing regular file. -/
def fileSize (fs : FileSystem) (p : List Char) : Nat :=
  ((lookupFile fs p).map List.length).getD 0

/-- The path `fs::directory_iterator` reports for an entry of a directory:
the directory path joined to the entry name with exactly one separator
(`item.path()`). -/
def entryFullPath (dirname name : List Char) : List Char :=
  if dirname.getLast? == some '/' then dirname ++ name else dirname ++ '/' :: name

/- ----------------------------------------------------------------- -/
/- torero-serve.cpp : request parsing                                 -/
/- ----------------------------------------------------------------- -/

/-- ECMAScript regex class `\s` (whitespace). -/
def isSpaceChar (c : Char) : Bool :=
  c == ' ' || c == '\t' || c == '\n' || c == '\x0b' || c == '\x0c' || c == '\r'

/-- ECMAScript regex class `\w` (word character). -/
def isWordChar (c : Char) : Bool :=
  ('a' ≤ c && c ≤ 'z') || ('A' ≤ c && c ≤ 'Z') || ('0' ≤ c && c ≤ '9') || c == '_'

/-- The character class `[\w\-\./]` of the request regex. -/
def isPathChar (c : Char) : Bool :=
  isWordChar c || c == '-' || c == '.' || c == '/'

/-- Matcher for the suffix `\sHTTP/\d\.\d` of the request regex at the start
of the input. -/
def matchSpaceHTTP : List Char → Bool
  | c :: 'H' :: 'T' :: 'T' :: 'P' :: '/' :: d₁ :: '.' :: d₂ :: _ =>
      isSpaceChar c && d₁.isDigit && d₂.isDigit
  | _ => false

/-- Matcher for `[\w\-\./]*\sHTTP/\d\.\d` at the start of the input: the
star either stops here or consumes one path character and continues. -/
def matchPathThen : List Char → Bool
  | [] => false
  | c :: rest => matchSpaceHTTP (c :: rest) || (isPathChar c && matchPathThen rest)

/-- Matcher for `GET\s[\w\-\./]*\sHTTP/\d\.\d` at the start of the input. -/
def matchGETAt : List Char → Bool
  | 'G' :: 'E' :: 'T' :: c :: rest => isSpaceChar c && matchPathThen rest
  | _ => false

/-- Validator `validGET(request)`: `std::regex_search` for the pattern
`(GET\s[\w\-\./]*\sHTTP/\d\.\d)` — true when the pattern matches at some
position of the request. -/
def validGET (request : List Char) : Bool :=
  request.tails.any matchGETAt

/-- The second `' '`-delimited token of the request, as extracted by the two
`getline(f, filename, ' ')` calls of `handleClient` (empty when fewer than
one space exists, because `getline` clears the string before a failed
extraction). -/
def secondToken (request : List Char) : List Char :=
  ((request.dropWhile (fun c => !(c == ' '))).drop 1).takeWhile
    (fun c => !(c == ' '))

/- ----------------------------------------------------------------- -/
/- torero-serve.cpp : response generation                             -/
/- ----------------------------------------------------------------- -/

/-- One effect of `handleClient` on the client socket: a `sendData` call
with the exact bytes, or `close`. -/
inductive NetAction where
  | send (data : List Char)
  | close
deriving Repr, DecidableEq

/-- Bytes a list of socket actions puts on the wire. -/
def NetAction.data : NetAction → List Char
  | .send d => d
  | .close => []

/-- Concatenated bytes transmitted by a list of actions. -/
def outputOf (acts : List NetAction) : List Char :=
  (acts.map NetAction.data).flatten

/-- Response `sendBad`: the bytes of the 400 response. -/
def sendBad : List Char := str "HTTP/1.0 400 BAD REQUEST\r\n"

/-- Response `sendNotFound`: the bytes of the 404 status line. -/
def sendNotFound : List Char := str "HTTP/1.0 404 NOT FOUND\r\n"

/-- Response `sendOK`: the bytes of the 200 status line. -/
def sendOK : List Char := str "HTTP/1.0 200 OK\r\n"

/-- The generated `Page not found!` HTML document shared by `sendError` and
the error branch of `sendHTML`. -/
def errorPage : List Char :=
  str "<html>\r\n<head>\r\n<title> Page not found! </title>\r\n</head>\r\n<body> 404 Page Not Found! </body>\r\n</html>\r\n"

/-- Response `sendError`: headers, blank line, the error page and the trailing CRLF,
sent as one `sendData` call. -/
def sendError : List Char :=
  str "Content-Type: text/html\r\nContent-Length: " ++
    natRepr errorPage.length ++ str "\r\n\r\n" ++ errorPage ++ str "\r\n"

/-- First match of the extension regex `(\.\w*)` in a path:
`std::regex_search` finds the leftmost `'.'` and greedily takes the word
characters after it. -/
def extMatch : List Char → Option (List Char)
  | [] => none
  | c :: rest =>
      if c == '.' then some (c :: rest.takeWhile isWordChar) else extMatch rest

/-- The `if`/`else if` chain of `sendHeader` mapping the regex match to a
Content-Type. -/
def contentTypeOf (ext : List Char) : List Char :=
  if ext == str ".html" then str "text/html"
  else if ext == str ".css" then str "text/css"
  else if ext == str ".jpg" then str "image/jpeg"
  else if ext == str ".gif" then str "image/gif"
  else if ext == str ".png" then str "image/png"
  else if ext == str ".pdf" then str "application/pdf"
  else str "text/plain"

/-- Header block `sendHeader(client_sock, filename)`: when the extension regex finds a
match, Content-Type and Content-Length headers followed by the blank line;
when it finds none the function prints `No Matches!` to stdout and returns
without sending anything. -/
def sendHeader (fs : FileSystem) (filename : List Char) : List Char :=
  match extMatch filename with
  | none => []
  | some m =>
      str "Content-Type: " ++ contentTypeOf m ++ str "\r\n" ++
        str "Content-Length: " ++ natRepr (fileSize fs filename) ++
        str "\r\n" ++ str "\r\n"

/-- The 4096-byte read/send chunks of `sendFile`, by fuel on the length
(enough fuel is always supplied). -/
def chunksOfAux : Nat → List Char → List (List Char)
  | 0, l => [l]
  | fuel + 1, l =>
      if l.length ≤ 4096 then [l]
      else l.take 4096 :: chunksOfAux fuel (l.drop 4096)

/-- The chunk decomposition of a file's bytes as `sendFile` reads it. -/
def chunksOf (l : List Char) : List (List Char) := chunksOfAux l.length l

/-- Body `sendFile(client_sock, filename)`: the file's bytes streamed in
4096-byte chunks, then the fixed 2-byte terminator `"\r\n"`. -/
def sendFileActs (fs : FileSystem) (filename : List Char) : List NetAction :=
  ((chunksOf ((lookupFile fs filename).getD [])).map NetAction.send) ++
    [NetAction.send (str "\r\n")]

/-- One iteration of the directory loop of `sendHTML` for a non-`index.html`
entry: the entry is rendered when `filename + item.path().filename()` (note:
plain string concatenation, no separator inserted) names a regular file
(plain link) or a directory (trailing slash on href and text); otherwise
nothing is appended. -/
def listItemFor (fs : FileSystem) (dirname name : List Char) : List Char :=
  if isRegularFile fs (dirname ++ name) then
    str "\t<li><a href=\"" ++ name ++ str "\">" ++ name ++ str "</a></li>\r\n"
  else if isDirectory fs (dirname ++ name) then
    str "\t<li><a href=\"" ++ name ++ str "/\">" ++ name ++ str "/</a></li>\r\n"
  else []

/-- The generated directory-listing page of `sendHTML`. -/
def dirPageBody (fs : FileSystem) (dirname : List Char)
    (entries : List (List Char)) : List Char :=
  str "<html>\r\n<head><title></title></head>\r\n<body>\r\n<ul>\r\n" ++
    (entries.map (listItemFor fs dirname)).flatten ++
    str "</ul>\r\n</body>\r\n</html>\r\n"

/-- Listing `sendHTML(client_sock, filename)`: the error page when the path is not a
directory; otherwise, if some entry is literally named `index.html`, that
file is served through `sendHeader`/`sendFile` (entries buffered before the
hit are discarded); otherwise headers, blank line, the generated listing and
the trailing CRLF in one `sendData` call. -/
def sendHTML (fs : FileSystem) (filename : List Char) : List NetAction :=
  if !(isDirectory fs filename) && fileExists fs filename then
    [NetAction.send (str "Content-Type: text/html\r\nContent-Length: " ++
      natRepr errorPage.length ++ str "\r\n\r\n" ++ errorPage ++ str "\r\n")]
  else
    let entries := (lookupDir fs filename).getD []
    if entries.any (fun name => name == str "index.html") then
      NetAction.send (sendHeader fs (entryFullPath filename (str "index.html"))) ::
        sendFileActs fs (entryFullPath filename (str "index.html"))
    else
      let html_page := dirPageBody fs filename entries
      [NetAction.send (str "Content-Type: text/html\r\nContent-Length: " ++
        natRepr html_page.length ++ str "\r\n\r\n" ++ html_page ++ str "\r\n")]

/-- Pipeline `handleClient(client_sock, root)` applied to the received request bytes:
the sequence of socket actions it performs.  Note the two early `return`s
(400 and 404 paths) leave the function without reaching the final
`close(client_sock)`. -/
def handleClient (fs : FileSystem) (root request : List Char) : List NetAction :=
  if !(validGET request) then
    [NetAction.send sendBad]
  else
    let filename := secondToken request
    let path := root ++ filename
    if !(fileExists fs path) && !(isDirectory fs path) then
      [NetAction.send sendNotFound, NetAction.send sendError]
    else
      NetAction.send sendOK ::
        ((if isDirectory fs path then sendHTML fs path
          else if fileExists fs path then
            NetAction.send (sendHeader fs path) :: sendFileActs fs path
          else []) ++ [NetAction.close])

/- ----------------------------------------------------------------- -/
/- Response parsing used to state the header claims                   -/
/- ----------------------------------------------------------------- -/

/-- Whether the input starts with the blank line separator `CRLF CRLF`. -/
def isBlankAt : List Char → Bool
  | c₁ :: c₂ :: c₃ :: c₄ :: _ =>
      c₁ == '\r' && c₂ == '\n' && c₃ == '\r' && c₄ == '\n'
  | _ => false

/-- The bytes after the first blank line (`CRLF CRLF`) of a response, if
any: the transmitted body plus the trailing terminator. -/
def afterBlank : List Char → Option (List Char)
  | [] => none
  | c :: rest => if isBlankAt (c :: rest) then some (rest.drop 3) else afterBlank rest

/-- Whether `pat` occurs as a contiguous substring of `l`. -/
def occurs (pat l : List Char) : Bool :=
  l.tails.any (fun t => pat.isPrefixOf t)

/- ----------------------------------------------------------------- -/
/- Concrete filesystems used by witnesses and counterexamples         -/
/- ----------------------------------------------------------------- -/

/-- An empty served directory tree. -/
def emptyFs : FileSystem := FileSystem.mk [] []

/-- A tree with one html file under a dot-free root. -/
def htmlFs : FileSystem :=
  FileSystem.mk [(str "r/f.html", str "hello")] []

/-- A tree whose resolved file path has a dot before the extension. -/
def dottedDirFs : FileSystem :=
  FileSystem.mk [(str "r/v1.2/index.html", str "x")] []

/-- A directory `r/sub` holding `a.txt`, reachable both with and without a
trailing slash in the URL. -/
def subDirFs : FileSystem :=
  FileSystem.mk [(str "r/sub/a.txt", str "hi")]
    [(str "r/sub", [str "a.txt"]), (str "r/sub/", [str "a.txt"])]

/-- A directory whose listing branch carries `index.html`. -/
def indexDirFs : FileSystem :=
  FileSystem.mk
    [(str "r/sub/index.html", str "<h1>idx</h1>"),
      (str "r/sub/a.txt", str "hi")]
    [(str "r/sub/", [str "a.txt", str "index.html"])]

/-- A 42-byte plain-text `index.html` under the dot-free root `www`. -/
def www42Fs : FileSystem :=
  FileSystem.mk
    [(str "www/index.html", str "0123456789012345678901234567890123456789ab")]
    []

/-- A dot-free regular file path under a dot-free root. -/
def noDotFs : FileSystem := FileSystem.mk [(str "r/data", str "abc")] []

/- ----------------------------------------------------------------- -/
/- Lemmas: BoundedBuffer invariants                                   -/
/- ----------------------------------------------------------------- -/

lemma step_inBounds {b b' : BoundedBuffer} {e : Event} (h : Step b e b')
    (hg : InBounds b) : InBounds b' ∧ b'.capacity = b.capacity := by
  obtain ⟨h0, hc⟩ := hg
  cases h with
  | put hne =>
    refine ⟨⟨by simp only [BoundedBuffer.putItem]; omega,
      by simp only [BoundedBuffer.putItem]; omega⟩, rfl⟩
  | get hne =>
    refine ⟨⟨by simp only [BoundedBuffer.getItem]; omega,
      by simp only [BoundedBuffer.getItem]; omega⟩, rfl⟩

lemma steps_inBounds {b b' : BoundedBuffer} {tr : List Event}
    (h : Steps b tr b') (hg : InBounds b) :
    InBounds b' ∧ b'.capacity = b.capacity := by
  induction h with
  | nil => exact ⟨hg, rfl⟩
  | cons hstep hrest ih =>
    obtain ⟨hg₁, hcap₁⟩ := step_inBounds hstep hg
    obtain ⟨hg₂, hcap₂⟩ := ih hg₁
    exact ⟨hg₂, hcap₂.trans hcap₁⟩

lemma step_sync {b b' : BoundedBuffer} {e : Event} (h : Step b e b')
    (hl : Sync b) :
    Sync b' ∧ getsOf [e] ++ b'.buffer = b.buffer ++ putsOf [e] := by
  unfold Sync at hl
  cases h with
  | put hne =>
    constructor
    · simp only [Sync, BoundedBuffer.putItem, List.length_append,
        List.length_cons, List.length_nil]
      push_cast
      omega
    · simp [BoundedBuffer.putItem, putsOf, getsOf]
  | get hne =>
    have hnonempty : b.buffer ≠ [] := by
      intro hnil
      rw [hnil] at hl
      simp at hl
      omega
    obtain ⟨hd, tl, hbuf⟩ := List.exists_cons_of_ne_nil hnonempty
    constructor
    · simp only [Sync, BoundedBuffer.getItem]
      rw [hbuf] at hl ⊢
      simp only [List.length_cons] at hl
      simp only [List.tail_cons]
      push_cast at hl ⊢
      omega
    · simp only [BoundedBuffer.getItem, putsOf, getsOf]
      rw [hbuf]
      simp [List.headI]

lemma steps_sync {b b' : BoundedBuffer} {tr : List Event}
    (h : Steps b tr b') (hl : Sync b) :
    Sync b' ∧ getsOf tr ++ b'.buffer = b.buffer ++ putsOf tr := by
  induction h with
  | nil => simp [hl, putsOf, getsOf]
  | cons hstep hrest ih =>
    obtain ⟨hl₁, heq₁⟩ := step_sync hstep hl
    obtain ⟨hl₂, heq₂⟩ := ih hl₁
    refine ⟨hl₂, ?_⟩
    rename_i b₀ b₁ b₂ e es
    cases e with
    | put x =>
      simp only [putsOf, getsOf] at heq₁ heq₂ ⊢
      rw [heq₂]
      simp only [List.nil_append] at heq₁
      rw [heq₁]
      simp
    | get x =>
      simp only [putsOf, getsOf] at heq₁ heq₂ ⊢
      simp only [List.append_nil] at heq₁
      rw [List.cons_append, heq₂, ← heq₁]
      simp

/- ----------------------------------------------------------------- -/
/- Theorems: BoundedBuffer claims                                     -/
/- ----------------------------------------------------------------- -/

/-- C1: for every capacity C ≥ 1 and every history of putItem/getItem calls
on a BoundedBuffer of capacity C, the count field never leaves [0, C]:
putItem proceeds only when count ≠ capacity and then increments count, and
getItem proceeds only when count ≠ 0 and then decrements count. -/
theorem count_within_bounds (C : Int) (hC : 1 ≤ C) (tr : List Event)
    (b' : BoundedBuffer) (h : Steps (BoundedBuffer.init C) tr b') :
    0 ≤ b'.count ∧ b'.count ≤ C := by
  have hinit : InBounds (BoundedBuffer.init C) := by
    constructor
    · simp [BoundedBuffer.init]
    · simp only [BoundedBuffer.init]
      omega
  obtain ⟨⟨h0, hc⟩, hcap⟩ := steps_inBounds h hinit
  rw [hcap] at hc
  exact ⟨h0, by simpa [BoundedBuffer.init] using hc⟩

theorem count_within_bounds_witness :
    0 ≤ (BoundedBuffer.mk 1 0 0 1 [3]).count ∧
      (BoundedBuffer.mk 1 0 0 1 [3]).count ≤ 1 :=
  count_within_bounds 1 (by decide) [Event.put 3] (BoundedBuffer.mk 1 0 0 1 [3])
    (Steps.cons (Step.put (by decide)) Steps.nil)

/-- C2: for every history of putItem and getItem calls on one BoundedBuffer,
the values returned by the getItem calls, in order, followed by the values
still stored, equal the values inserted by the putItem calls in order: items
come out in insertion order, each inserted item is returned at most once,
and no value other than an inserted one is ever returned — a reference FIFO
queue. -/
theorem fifo_behavior (C : Int) (tr : List Event) (b' : BoundedBuffer)
    (h : Steps (BoundedBuffer.init C) tr b') :
    getsOf tr ++ b'.buffer = putsOf tr := by
  have hsync : Sync (BoundedBuffer.init C) := by
    simp [Sync, BoundedBuffer.init]
  obtain ⟨_, heq⟩ := steps_sync h hsync
  simpa [BoundedBuffer.init] using heq

theorem fifo_behavior_witness :
    getsOf [Event.put 7, Event.put 8, Event.get 7] ++
        (BoundedBuffer.mk 1 0 1 2 [8]).buffer =
      putsOf [Event.put 7, Event.put 8, Event.get 7] :=
  fifo_behavior 2 [Event.put 7, Event.put 8, Event.get 7]
    (BoundedBuffer.mk 1 0 1 2 [8])
    (Steps.cons (Step.put (by decide))
      (Steps.cons (Step.put (by decide))
        (Steps.cons (Step.get (by decide)) Steps.nil)))

/-- C9: for every history of putItem/getItem operations on a BoundedBuffer,
after every operation the count field equals the number of elements stored
in the internal queue. -/
theorem count_matches_contents (C : Int) (tr : List Event)
    (b' : BoundedBuffer) (h : Steps (BoundedBuffer.init C) tr b') :
    b'.count = b'.buffer.length := by
  have hsync : Sync (BoundedBuffer.init C) := by
    simp [Sync, BoundedBuffer.init]
  exact (steps_sync h hsync).1

theorem count_matches_contents_witness :
    (BoundedBuffer.mk 1 0 1 2 [9]).count =
      (BoundedBuffer.mk 1 0 1 2 [9]).buffer.length :=
  count_matches_contents 2 [Event.put 4, Event.put 9, Event.get 4]
    (BoundedBuffer.mk 1 0 1 2 [9])
    (Steps.cons (Step.put (by decide))
      (Steps.cons (Step.put (by decide))
        (Steps.cons (Step.get (by decide)) Steps.nil)))

/- ----------------------------------------------------------------- -/
/- Lemmas: wire output of handleClient                                -/
/- ----------------------------------------------------------------- -/

lemma outputOf_cons (a : NetAction) (acts : List NetAction) :
    outputOf (a :: acts) = a.data ++ outputOf acts := by
  simp [outputOf]

lemma chunksOfAux_flatten (fuel : Nat) :
    ∀ l : List Char, (chunksOfAux fuel l).flatten = l := by
  induction fuel with
  | zero => intro l; simp [chunksOfAux]
  | succ f ih =>
    intro l
    rw [chunksOfAux]
    split
    · simp
    · simp [ih]

lemma chunksOf_flatten (l : List Char) : (chunksOf l).flatten = l :=
  chunksOfAux_flatten _ l

lemma map_data_send (cs : List (List Char)) :
    List.map (NetAction.data ∘ NetAction.send) cs = cs := by
  induction cs with
  | nil => rfl
  | cons c rest ih => simp [ih, NetAction.data, Function.comp]

lemma sendFileActs_output {fs : FileSystem} {p c : List Char}
    (h : lookupFile fs p = some c) :
    outputOf (sendFileActs fs p) = c ++ str "\r\n" := by
  simp [sendFileActs, outputOf, NetAction.data, h, List.map_map,
    map_data_send, chunksOf_flatten]

lemma lookupFile_isRegularFile {fs : FileSystem} {p c : List Char}
    (h : lookupFile fs p = some c) : isRegularFile fs p = true := by
  unfold lookupFile at h
  unfold isRegularFile
  cases hf : fs.files.find? (fun e => e.1 == p) with
  | none => rw [hf] at h; simp at h
  | some e =>
    have hmem := List.mem_of_find?_eq_some hf
    have hp := List.find?_some hf
    exact List.any_eq_true.mpr ⟨e, hmem, hp⟩

lemma fileSize_of_lookup {fs : FileSystem} {p c : List Char}
    (h : lookupFile fs p = some c) : fileSize fs p = c.length := by
  simp [fileSize, h]

lemma handleClient_bad {fs : FileSystem} {root req : List Char}
    (hv : validGET req = false) :
    handleClient fs root req = [NetAction.send sendBad] := by
  simp [handleClient, hv]

lemma handleClient_notFound {fs : FileSystem} {root req : List Char}
    (hv : validGET req = true)
    (hr : isRegularFile fs (root ++ secondToken req) = false)
    (hd : isDirectory fs (root ++ secondToken req) = false) :
    handleClient fs root req =
      [NetAction.send sendNotFound, NetAction.send sendError] := by
  simp [handleClient, hv, fileExists, hr, hd]

lemma handleClient_file {fs : FileSystem} {root req content : List Char}
    (hv : validGET req = true)
    (hf : lookupFile fs (root ++ secondToken req) = some content)
    (hd : isDirectory fs (root ++ secondToken req) = false) :
    handleClient fs root req =
      NetAction.send sendOK ::
        NetAction.send (sendHeader fs (root ++ secondToken req)) ::
        (sendFileActs fs (root ++ secondToken req) ++ [NetAction.close]) := by
  have hr : isRegularFile fs (root ++ secondToken req) = true :=
    lookupFile_isRegularFile hf
  simp [handleClient, hv, fileExists, hr, hd]

lemma handleClient_file_output {fs : FileSystem} {root req content : List Char}
    (hv : validGET req = true)
    (hf : lookupFile fs (root ++ secondToken req) = some content)
    (hd : isDirectory fs (root ++ secondToken req) = false) :
    outputOf (handleClient fs root req) =
      sendOK ++ sendHeader fs (root ++ secondToken req) ++ content ++
        str "\r\n" := by
  rw [handleClient_file hv hf hd]
  simp [outputOf, NetAction.data, sendFileActs, hf, List.map_map,
    map_data_send, chunksOf_flatten]

lemma handleClient_dir {fs : FileSystem} {root req : List Char}
    (hv : validGET req = true)
    (hd : isDirectory fs (root ++ secondToken req) = true) :
    handleClient fs root req =
      NetAction.send sendOK ::
        (sendHTML fs (root ++ secondToken req) ++ [NetAction.close]) := by
  simp [handleClient, hv, fileExists, hd]

lemma sendHTML_no_index {fs : FileSystem} {p : List Char}
    {entries : List (List Char)}
    (hd : isDirectory fs p = true) (he : lookupDir fs p = some entries)
    (hni : entries.any (fun name => name == str "index.html") = false) :
    sendHTML fs p =
      [NetAction.send (str "Content-Type: text/html\r\nContent-Length: " ++
        natRepr (dirPageBody fs p entries).length ++ str "\r\n\r\n" ++
        dirPageBody fs p entries ++ str "\r\n")] := by
  simp [sendHTML, hd, he, hni]

lemma sendHTML_index {fs : FileSystem} {p : List Char}
    {entries : List (List Char)}
    (hd : isDirectory fs p = true) (he : lookupDir fs p = some entries)
    (hi : entries.any (fun name => name == str "index.html") = true) :
    sendHTML fs p =
      NetAction.send (sendHeader fs (entryFullPath p (str "index.html"))) ::
        sendFileActs fs (entryFullPath p (str "index.html")) := by
  simp [sendHTML, hd, he, hi]

/- ----------------------------------------------------------------- -/
/- Lemmas: the extension regex                                        -/
/- ----------------------------------------------------------------- -/

lemma extMatch_cons_ne {c : Char} {l : List Char} (h : (c == '.') = false) :
    extMatch (c :: l) = extMatch l := by
  simp [extMatch, h]

lemma extMatch_append_no_dot {l₁ : List Char}
    (h : l₁.all (fun c => !(c == '.')) = true) (l₂ : List Char) :
    extMatch (l₁ ++ l₂) = extMatch l₂ := by
  induction l₁ with
  | nil => rfl
  | cons c rest ih =>
    simp only [List.all_cons, Bool.and_eq_true, Bool.not_eq_true'] at h
    rw [List.cons_append, extMatch_cons_ne h.1]
    exact ih (by simpa using h.2)

lemma extMatch_none_of_no_dot {l : List Char}
    (h : l.all (fun c => !(c == '.')) = true) : extMatch l = none := by
  have := extMatch_append_no_dot h []
  simpa using this

/- ----------------------------------------------------------------- -/
/- Lemmas: digits of a decimal rendering                              -/
/- ----------------------------------------------------------------- -/

lemma digitChar_ne_cr (n : Nat) : ¬ Nat.digitChar n = '\r' := by
  match n with
  | 0 => decide
  | 1 => decide
  | 2 => decide
  | 3 => decide
  | 4 => decide
  | 5 => decide
  | 6 => decide
  | 7 => decide
  | 8 => decide
  | 9 => decide
  | 10 => decide
  | 11 => decide
  | 12 => decide
  | 13 => decide
  | 14 => decide
  | 15 => decide
  | (k + 16) =>
    have h : Nat.digitChar (k + 16) = '*' := by
      rw [Nat.digitChar]
      repeat rw [if_neg (by omega)]
    rw [h]
    decide

lemma toDigitsCore_not_cr (b : Nat) (fuel : Nat) :
    ∀ n ds, ds.all (fun c => !(c == '\r')) = true →
      (Nat.toDigitsCore b fuel n ds).all (fun c => !(c == '\r')) = true := by
  induction fuel with
  | zero =>
    intro n ds h
    simpa [Nat.toDigitsCore] using h
  | succ f ih =>
    intro n ds h
    rw [Nat.toDigitsCore]
    split
    · simp [List.all_cons, h, digitChar_ne_cr]
    · exact ih _ _ (by simp [List.all_cons, h, digitChar_ne_cr])

lemma natRepr_not_cr (n : Nat) :
    (natRepr n).all (fun c => !(c == '\r')) = true := by
  have h := toDigitsCore_not_cr 10 (n + 1) n [] (by decide)
  simpa [natRepr, Nat.repr, Nat.toDigits, List.asString] using h

lemma contentTypeOf_not_cr (m : List Char) :
    (contentTypeOf m).all (fun c => !(c == '\r')) = true := by
  unfold contentTypeOf
  split_ifs <;> decide

/- ----------------------------------------------------------------- -/
/- Lemmas: locating the blank line of a response                      -/
/- ----------------------------------------------------------------- -/

lemma isBlankAt_cons_ne {c : Char} (l : List Char) (h : (c == '\r') = false) :
    isBlankAt (c :: l) = false := by
  match l with
  | [] => rfl
  | [c₂] => rfl
  | [c₂, c₃] => rfl
  | c₂ :: c₃ :: c₄ :: rest => simp [isBlankAt, h]

lemma afterBlank_cons_ne {c : Char} (l : List Char) (h : (c == '\r') = false) :
    afterBlank (c :: l) = afterBlank l := by
  rw [afterBlank, isBlankAt_cons_ne l h]
  simp

lemma afterBlank_skip (xs l : List Char)
    (h : xs.all (fun c => !(c == '\r')) = true) :
    afterBlank (xs ++ l) = afterBlank l := by
  induction xs with
  | nil => rfl
  | cons c rest ih =>
    simp only [List.all_cons, Bool.and_eq_true, Bool.not_eq_true'] at h
    rw [List.cons_append, afterBlank_cons_ne _ h.1]
    exact ih (by simpa using h.2)

lemma isBlankAt_crlf_ne {c : Char} (l : List Char) (h : (c == '\r') = false) :
    isBlankAt ('\r' :: '\n' :: c :: l) = false := by
  match l with
  | [] => rfl
  | c₄ :: rest => simp [isBlankAt, h]

lemma afterBlank_crlf_cons {c : Char} (l : List Char)
    (h : (c == '\r') = false) :
    afterBlank ('\r' :: '\n' :: c :: l) = afterBlank (c :: l) := by
  rw [afterBlank, isBlankAt_crlf_ne _ h]
  simp
  rw [afterBlank_cons_ne _ (by decide)]

lemma afterBlank_blank (l : List Char) :
    afterBlank ('\r' :: '\n' :: '\r' :: '\n' :: l) = some l := rfl

/- ----------------------------------------------------------------- -/
/- Lemmas: substring occurrence                                       -/
/- ----------------------------------------------------------------- -/

lemma isPrefixOf_append_self (xs ys : List Char) :
    xs.isPrefixOf (xs ++ ys) = true :=
  Iff.mpr List.isPrefixOf_iff_prefix ⟨ys, rfl⟩

lemma occurs_mid (pat x y : List Char) : occurs pat (x ++ (pat ++ y)) = true := by
  unfold occurs
  apply List.any_eq_true.mpr
  exact ⟨pat ++ y, (List.mem_tails _ _).mpr ⟨x, rfl⟩, isPrefixOf_append_self pat y⟩

lemma afterBlank_skipline (xs : List Char) {c : Char} {l : List Char}
    (hxs : xs.all (fun c => !(c == '\r')) = true)
    (hc : (c == '\r') = false) :
    afterBlank (xs ++ ('\r' :: '\n' :: c :: l)) = afterBlank (c :: l) := by
  rw [afterBlank_skip xs _ hxs, afterBlank_crlf_cons _ hc]

lemma afterBlank_response (t d body : List Char)
    (ht : t.all (fun c => !(c == '\r')) = true)
    (hd : d.all (fun c => !(c == '\r')) = true) :
    afterBlank (str "HTTP/1.0 200 OK\r\n" ++ (str "Content-Type: " ++ (t ++
      (str "\r\n" ++ (str "Content-Length: " ++ (d ++ (str "\r\n" ++
      (str "\r\n" ++ body)))))))) = some body := by
  calc
    afterBlank (str "HTTP/1.0 200 OK\r\n" ++ (str "Content-Type: " ++ (t ++
        (str "\r\n" ++ (str "Content-Length: " ++ (d ++ (str "\r\n" ++
        (str "\r\n" ++ body))))))))
      = afterBlank ('C' :: (str "ontent-Type: " ++ (t ++
          (str "\r\n" ++ (str "Content-Length: " ++ (d ++ (str "\r\n" ++
          (str "\r\n" ++ body)))))))) :=
        afterBlank_skipline (str "HTTP/1.0 200 OK") (by decide) (by decide)
    _ = afterBlank (t ++ (str "\r\n" ++ (str "Content-Length: " ++
          (d ++ (str "\r\n" ++ (str "\r\n" ++ body)))))) :=
        afterBlank_skip ('C' :: str "ontent-Type: ") _ (by decide)
    _ = afterBlank (str "\r\n" ++ (str "Content-Length: " ++
          (d ++ (str "\r\n" ++ (str "\r\n" ++ body))))) :=
        afterBlank_skip t _ ht
    _ = afterBlank ('C' :: (str "ontent-Length: " ++
          (d ++ (str "\r\n" ++ (str "\r\n" ++ body))))) :=
        afterBlank_crlf_cons _ (by decide)
    _ = afterBlank (d ++ (str "\r\n" ++ (str "\r\n" ++ body))) :=
        afterBlank_skip ('C' :: str "ontent-Length: ") _ (by decide)
    _ = afterBlank (str "\r\n" ++ (str "\r\n" ++ body)) :=
        afterBlank_skip d _ hd
    _ = some body := afterBlank_blank body

lemma afterBlank_response_html (d body : List Char)
    (hd : d.all (fun c => !(c == '\r')) = true) :
    afterBlank (str "HTTP/1.0 200 OK\r\n" ++
      (str "Content-Type: text/html\r\nContent-Length: " ++ (d ++
      (str "\r\n\r\n" ++ body)))) = some body := by
  calc
    afterBlank (str "HTTP/1.0 200 OK\r\n" ++
        (str "Content-Type: text/html\r\nContent-Length: " ++ (d ++
        (str "\r\n\r\n" ++ body))))
      = afterBlank ('C' :: (str "ontent-Type: text/html\r\nContent-Length: " ++
          (d ++ (str "\r\n\r\n" ++ body)))) :=
        afterBlank_skipline (str "HTTP/1.0 200 OK") (by decide) (by decide)
    _ = afterBlank ('C' :: (str "ontent-Length: " ++
          (d ++ (str "\r\n\r\n" ++ body)))) :=
        afterBlank_skipline ('C' :: str "ontent-Type: text/html") (by decide)
          (by decide)
    _ = afterBlank (d ++ (str "\r\n\r\n" ++ body)) :=
        afterBlank_skip ('C' :: str "ontent-Length: ") _ (by decide)
    _ = afterBlank (str "\r\n\r\n" ++ body) := afterBlank_skip d _ hd
    _ = some body := afterBlank_blank body

lemma extMatch_append_isSome (l₁ : List Char) {l₂ : List Char}
    (h : (extMatch l₂).isSome = true) :
    (extMatch (l₁ ++ l₂)).isSome = true := by
  induction l₁ with
  | nil => simpa using h
  | cons c rest ih =>
    rw [List.cons_append]
    by_cases hc : (c == '.') = true
    · simp [extMatch, hc]
    · rw [extMatch_cons_ne (by simpa using hc)]
      exact ih

lemma extMatch_entryFullPath_index (p : List Char) :
    (extMatch (entryFullPath p (str "index.html"))).isSome = true := by
  unfold entryFullPath
  split
  · exact extMatch_append_isSome p (by decide)
  · exact extMatch_append_isSome p (by decide)

lemma header_response_content_length (fs : FileSystem)
    (p content m : List Char) (hm : extMatch p = some m)
    (hsz : fileSize fs p = content.length) :
    afterBlank (sendOK ++ sendHeader fs p ++ content ++ str "\r\n") =
        some (content ++ str "\r\n") ∧
      occurs (str "Content-Length: " ++ natRepr content.length ++
        str "\r\n") (sendOK ++ sendHeader fs p ++ content ++ str "\r\n") =
        true := by
  constructor
  · have heq : sendOK ++ sendHeader fs p ++ content ++ str "\r\n" =
        str "HTTP/1.0 200 OK\r\n" ++ (str "Content-Type: " ++
          (contentTypeOf m ++ (str "\r\n" ++ (str "Content-Length: " ++
          (natRepr content.length ++ (str "\r\n" ++ (str "\r\n" ++
          (content ++ str "\r\n")))))))) := by
      simp only [sendHeader, hm, hsz, sendOK]
      simp only [List.append_assoc]
    rw [heq]
    exact afterBlank_response (contentTypeOf m) (natRepr content.length)
      (content ++ str "\r\n") (contentTypeOf_not_cr m)
      (natRepr_not_cr content.length)
  · have heq : sendOK ++ sendHeader fs p ++ content ++ str "\r\n" =
        (str "HTTP/1.0 200 OK\r\n" ++ (str "Content-Type: " ++
          (contentTypeOf m ++ str "\r\n"))) ++
        ((str "Content-Length: " ++ natRepr content.length ++ str "\r\n") ++
          (str "\r\n" ++ (content ++ str "\r\n"))) := by
      simp only [sendHeader, hm, hsz, sendOK]
      simp only [List.append_assoc]
    rw [heq]
    exact occurs_mid _ _ _


/- ----------------------------------------------------------------- -/
/- Theorems: request-pipeline claims                                  -/
/- ----------------------------------------------------------------- -/

/-- C7: for every received request buffer in which the pattern
`GET\s[\w\-\./]*\sHTTP/\d\.\d` matches nowhere (for example
`POST / HTTP/1.0`), the server performs exactly one send of the status line
`HTTP/1.0 400 BAD REQUEST` followed by CRLF — no headers and no body. -/
theorem bad_request_bare_400 (fs : FileSystem) (root req : List Char)
    (hv : validGET req = false) :
    handleClient fs root req =
      [NetAction.send (str "HTTP/1.0 400 BAD REQUEST\r\n")] :=
  handleClient_bad hv

theorem bad_request_bare_400_witness :
    validGET (str "POST / HTTP/1.0") = false ∧
      handleClient emptyFs (str "r") (str "POST / HTTP/1.0") =
        [NetAction.send (str "HTTP/1.0 400 BAD REQUEST\r\n")] :=
  ⟨by decide,
    bad_request_bare_400 emptyFs (str "r") (str "POST / HTTP/1.0") (by decide)⟩

/-- C3: contrary to the claim (and to the function's own doc comment,
`@note After this function returns, client_sock will have been closed`),
`handleClient` returns without closing the client socket on the BadRequest
path and on the NotFound path: no `close` action occurs there, while the
200 path does end in `close`. -/
theorem close_skipped_on_error_paths :
    NetAction.close ∉ handleClient emptyFs (str "r") (str "POST / HTTP/1.0") ∧
      NetAction.close ∉
        handleClient emptyFs (str "r") (str "GET /missing HTTP/1.0") ∧
      NetAction.close ∈
        handleClient htmlFs (str "r") (str "GET /f.html HTTP/1.0") := by
  decide

set_option maxRecDepth 10000 in
/-- C4: in every response that carries a Content-Length header — the 404
error page, the 200 regular-file response, the 200 generated
directory-listing response, and the 200 response for a directory served
through its `index.html` entry (where the `.html` suffix guarantees the
extension regex a match, so the header block is always present) — the
number declared after `Content-Length: ` equals the exact number of body
bytes transmitted after the blank line, excluding the fixed 2-byte
terminator: the bytes after the first blank line are always the declared
body followed by exactly the CRLF terminator. -/
theorem content_length_matches_body :
    (∀ (fs : FileSystem) (root req : List Char),
      validGET req = true →
      isRegularFile fs (root ++ secondToken req) = false →
      isDirectory fs (root ++ secondToken req) = false →
      afterBlank (outputOf (handleClient fs root req)) =
          some (errorPage ++ str "\r\n") ∧
        occurs (str "Content-Length: " ++ natRepr errorPage.length ++
          str "\r\n") (outputOf (handleClient fs root req)) = true) ∧
    (∀ (fs : FileSystem) (root req content m : List Char),
      validGET req = true →
      lookupFile fs (root ++ secondToken req) = some content →
      isDirectory fs (root ++ secondToken req) = false →
      extMatch (root ++ secondToken req) = some m →
      afterBlank (outputOf (handleClient fs root req)) =
          some (content ++ str "\r\n") ∧
        occurs (str "Content-Length: " ++ natRepr content.length ++
          str "\r\n") (outputOf (handleClient fs root req)) = true) ∧
    (∀ (fs : FileSystem) (root req : List Char)
      (entries : List (List Char)),
      validGET req = true →
      isDirectory fs (root ++ secondToken req) = true →
      lookupDir fs (root ++ secondToken req) = some entries →
      entries.any (fun name => name == str "index.html") = false →
      afterBlank (outputOf (handleClient fs root req)) =
          some (dirPageBody fs (root ++ secondToken req) entries ++
            str "\r\n") ∧
        occurs (str "Content-Length: " ++
          natRepr (dirPageBody fs (root ++ secondToken req) entries).length ++
          str "\r\n") (outputOf (handleClient fs root req)) = true) ∧
    (∀ (fs : FileSystem) (root req : List Char)
      (entries : List (List Char)) (icontent : List Char),
      validGET req = true →
      isDirectory fs (root ++ secondToken req) = true →
      lookupDir fs (root ++ secondToken req) = some entries →
      entries.any (fun name => name == str "index.html") = true →
      lookupFile fs
          (entryFullPath (root ++ secondToken req) (str "index.html")) =
        some icontent →
      afterBlank (outputOf (handleClient fs root req)) =
          some (icontent ++ str "\r\n") ∧
        occurs (str "Content-Length: " ++ natRepr icontent.length ++
          str "\r\n") (outputOf (handleClient fs root req)) = true) := by
  refine ⟨?_, ?_, ?_, ?_⟩
  · intro fs root req hv hr hd
    rw [handleClient_notFound hv hr hd]
    constructor
    · decide
    · decide
  · intro fs root req content m hv hf hd hm
    rw [handleClient_file_output hv hf hd]
    exact header_response_content_length fs (root ++ secondToken req) content
      m hm (fileSize_of_lookup hf)
  · intro fs root req entries hv hd he hni
    have hact := handleClient_dir hv hd
    have hhtml := sendHTML_no_index hd he hni
    have hout : outputOf (handleClient fs root req) =
        sendOK ++ (str "Content-Type: text/html\r\nContent-Length: " ++
          natRepr (dirPageBody fs (root ++ secondToken req) entries).length ++
          str "\r\n\r\n" ++
          dirPageBody fs (root ++ secondToken req) entries ++ str "\r\n") := by
      rw [hact, hhtml]
      simp [outputOf, NetAction.data]
    rw [hout]
    constructor
    · have heq : sendOK ++ (str "Content-Type: text/html\r\nContent-Length: " ++
          natRepr (dirPageBody fs (root ++ secondToken req) entries).length ++
          str "\r\n\r\n" ++
          dirPageBody fs (root ++ secondToken req) entries ++ str "\r\n") =
          str "HTTP/1.0 200 OK\r\n" ++
            (str "Content-Type: text/html\r\nContent-Length: " ++
            (natRepr (dirPageBody fs (root ++ secondToken req) entries).length ++
            (str "\r\n\r\n" ++
            (dirPageBody fs (root ++ secondToken req) entries ++
              str "\r\n")))) := by
        simp only [sendOK, List.append_assoc]
      rw [heq]
      exact afterBlank_response_html _ _ (natRepr_not_cr _)
    · have heq : sendOK ++ (str "Content-Type: text/html\r\nContent-Length: " ++
          natRepr (dirPageBody fs (root ++ secondToken req) entries).length ++
          str "\r\n\r\n" ++
          dirPageBody fs (root ++ secondToken req) entries ++ str "\r\n") =
          str "HTTP/1.0 200 OK\r\nContent-Type: text/html\r\n" ++
          ((str "Content-Length: " ++
            natRepr (dirPageBody fs (root ++ secondToken req) entries).length ++
            str "\r\n") ++
          (str "\r\n" ++
            (dirPageBody fs (root ++ secondToken req) entries ++
              str "\r\n"))) := by
        simp only [sendOK, List.append_assoc]
        rfl
      rw [heq]
      exact occurs_mid _ _ _
  · intro fs root req entries icontent hv hd he hi hlook
    obtain ⟨mi, hmi⟩ := Option.isSome_iff_exists.mp
      (extMatch_entryFullPath_index (root ++ secondToken req))
    have hout : outputOf (handleClient fs root req) =
        sendOK ++
          sendHeader fs
            (entryFullPath (root ++ secondToken req) (str "index.html")) ++
          icontent ++ str "\r\n" := by
      rw [handleClient_dir hv hd, sendHTML_index hd he hi]
      simp [outputOf, NetAction.data, sendFileActs, hlook, List.map_map,
        map_data_send, chunksOf_flatten, List.append_assoc]
    rw [hout]
    exact header_response_content_length fs
      (entryFullPath (root ++ secondToken req) (str "index.html")) icontent
      mi hmi (fileSize_of_lookup hlook)

set_option maxRecDepth 10000 in
theorem content_length_matches_body_witness :
    (afterBlank (outputOf (handleClient htmlFs (str "r")
        (str "GET /f.html HTTP/1.0"))) = some (str "hello" ++ str "\r\n") ∧
      occurs (str "Content-Length: " ++ natRepr (str "hello").length ++
        str "\r\n") (outputOf (handleClient htmlFs (str "r")
        (str "GET /f.html HTTP/1.0"))) = true) ∧
    (afterBlank (outputOf (handleClient indexDirFs (str "r")
        (str "GET /sub/ HTTP/1.0"))) =
        some (str "<h1>idx</h1>" ++ str "\r\n") ∧
      occurs (str "Content-Length: " ++ natRepr (str "<h1>idx</h1>").length ++
        str "\r\n") (outputOf (handleClient indexDirFs (str "r")
        (str "GET /sub/ HTTP/1.0"))) = true) :=
  ⟨content_length_matches_body.2.1 htmlFs (str "r")
      (str "GET /f.html HTTP/1.0") (str "hello") (str ".html") (by decide)
      (by decide) (by decide) (by decide),
    content_length_matches_body.2.2.2 indexDirFs (str "r")
      (str "GET /sub/ HTTP/1.0") [str "a.txt", str "index.html"]
      (str "<h1>idx</h1>") (by decide) (by decide) (by decide) (by decide)
      (by decide)⟩


set_option maxRecDepth 10000 in
/-- C5 counterexample: `r/v1.2/index.html` is an existing regular file with
extension `html`, served with 200, yet the response carries
`Content-Type: text/plain` and not `Content-Type: text/html`: the lookup is
not performed on the file's extension (the extension regex `(\.\w*)` stops
at the first dot of the full path, here `.2`). -/
theorem content_type_not_extension_counterexample :
    lookupFile dottedDirFs
        (str "r" ++ secondToken (str "GET /v1.2/index.html HTTP/1.0")) =
      some (str "x") ∧
    occurs (str "Content-Type: text/html")
        (outputOf (handleClient dottedDirFs (str "r")
          (str "GET /v1.2/index.html HTTP/1.0"))) = false ∧
    occurs (str "Content-Type: text/plain")
        (outputOf (handleClient dottedDirFs (str "r")
          (str "GET /v1.2/index.html HTTP/1.0"))) = true := by
  decide

/-- C5 (amended): for every existing regular file served with 200, the
Content-Type header is looked up from the FIRST substring of the full
resolved path matching a dot followed by word characters (which is the
file's extension only when no earlier dot occurs in the path) against the
fixed table html→text/html, css→text/css, jpg→image/jpeg, gif→image/gif,
png→image/png, pdf→application/pdf, with text/plain for any other match,
and the Content-Length header equals the file's exact byte size. -/
theorem content_type_first_match_and_exact_length :
    (∀ (fs : FileSystem) (root req content m : List Char),
      validGET req = true →
      lookupFile fs (root ++ secondToken req) = some content →
      isDirectory fs (root ++ secondToken req) = false →
      extMatch (root ++ secondToken req) = some m →
      outputOf (handleClient fs root req) =
        sendOK ++ (str "Content-Type: " ++ contentTypeOf m ++ str "\r\n" ++
          str "Content-Length: " ++ natRepr content.length ++ str "\r\n" ++
          str "\r\n") ++ content ++ str "\r\n") ∧
    contentTypeOf (str ".html") = str "text/html" ∧
    contentTypeOf (str ".css") = str "text/css" ∧
    contentTypeOf (str ".jpg") = str "image/jpeg" ∧
    contentTypeOf (str ".gif") = str "image/gif" ∧
    contentTypeOf (str ".png") = str "image/png" ∧
    contentTypeOf (str ".pdf") = str "application/pdf" ∧
    (∀ m : List Char,
      m ∉ [str ".html", str ".css", str ".jpg", str ".gif", str ".png",
        str ".pdf"] →
      contentTypeOf m = str "text/plain") := by
  refine ⟨?_, by decide, by decide, by decide, by decide, by decide,
    by decide, ?_⟩
  · intro fs root req content m hv hf hd hm
    rw [handleClient_file_output hv hf hd]
    simp only [sendHeader, hm, fileSize_of_lookup hf, sendOK]
  · intro m hmem
    simp only [contentTypeOf]
    rw [if_neg, if_neg, if_neg, if_neg, if_neg, if_neg]
    · intro h
      exact hmem (by rw [eq_of_beq h]; simp)
    · intro h
      exact hmem (by rw [eq_of_beq h]; simp)
    · intro h
      exact hmem (by rw [eq_of_beq h]; simp)
    · intro h
      exact hmem (by rw [eq_of_beq h]; simp)
    · intro h
      exact hmem (by rw [eq_of_beq h]; simp)
    · intro h
      exact hmem (by rw [eq_of_beq h]; simp)

set_option maxRecDepth 10000 in
theorem content_type_first_match_and_exact_length_witness :
    outputOf (handleClient htmlFs (str "r") (str "GET /f.html HTTP/1.0")) =
        sendOK ++ (str "Content-Type: " ++ contentTypeOf (str ".html") ++
          str "\r\n" ++ str "Content-Length: " ++
          natRepr (str "hello").length ++ str "\r\n" ++ str "\r\n") ++
          str "hello" ++ str "\r\n" ∧
      contentTypeOf (str ".xyz") = str "text/plain" :=
  ⟨content_type_first_match_and_exact_length.1 htmlFs (str "r")
      (str "GET /f.html HTTP/1.0") (str "hello") (str ".html") (by decide)
      (by decide) (by decide) (by decide),
    content_type_first_match_and_exact_length.2.2.2.2.2.2.2 (str ".xyz")
      (by decide)⟩


set_option maxRecDepth 10000 in
/-- C6 counterexample: the request `GET /sub HTTP/1.0` resolves to the
existing directory `r/sub`, which has no `index.html` and contains the entry
`a.txt`, yet the generated 200 body contains no hyperlink for it (no
`a.txt` at all): the loop tests `filename + entry` without a path
separator (`r/suba.txt`), which names nothing, so the entry is skipped. -/
theorem dir_listing_counterexample :
    isDirectory subDirFs
        (str "r" ++ secondToken (str "GET /sub HTTP/1.0")) = true ∧
    lookupDir subDirFs (str "r" ++ secondToken (str "GET /sub HTTP/1.0")) =
      some [str "a.txt"] ∧
    occurs sendOK (outputOf (handleClient subDirFs (str "r")
      (str "GET /sub HTTP/1.0"))) = true ∧
    occurs (str "a.txt") (outputOf (handleClient subDirFs (str "r")
      (str "GET /sub HTTP/1.0"))) = false := by
  decide

/-- C6 (amended): for every request resolving to an existing directory: if
the directory contains an entry literally named index.html, that file is
served as in the regular-file case; otherwise the 200 response body is an
HTML page that lists as a hyperlink exactly those entries E for which the
concatenation of the resolved directory path and E with NO separator
inserted names an existing regular file (plain link) or directory (trailing
slash appended to both link text and href); entries for which that
concatenation names nothing — in particular every entry when the request
path lacks a trailing slash — are omitted. -/
theorem dir_listing_and_index :
    (∀ (fs : FileSystem) (root req : List Char)
      (entries : List (List Char)) (icontent mi : List Char),
      validGET req = true →
      isDirectory fs (root ++ secondToken req) = true →
      lookupDir fs (root ++ secondToken req) = some entries →
      entries.any (fun name => name == str "index.html") = true →
      lookupFile fs
          (entryFullPath (root ++ secondToken req) (str "index.html")) =
        some icontent →
      extMatch (entryFullPath (root ++ secondToken req) (str "index.html")) =
        some mi →
      outputOf (handleClient fs root req) =
        sendOK ++ (str "Content-Type: " ++ contentTypeOf mi ++ str "\r\n" ++
          str "Content-Length: " ++ natRepr icontent.length ++ str "\r\n" ++
          str "\r\n") ++ icontent ++ str "\r\n") ∧
    (∀ (fs : FileSystem) (root req : List Char)
      (entries : List (List Char)),
      validGET req = true →
      isDirectory fs (root ++ secondToken req) = true →
      lookupDir fs (root ++ secondToken req) = some entries →
      entries.any (fun name => name == str "index.html") = false →
      outputOf (handleClient fs root req) =
        sendOK ++ str "Content-Type: text/html\r\nContent-Length: " ++
          natRepr
            (dirPageBody fs (root ++ secondToken req) entries).length ++
          str "\r\n\r\n" ++
          dirPageBody fs (root ++ secondToken req) entries ++ str "\r\n") ∧
    (∀ (fs : FileSystem) (p : List Char) (entries : List (List Char)),
      dirPageBody fs p entries =
        str "<html>\r\n<head><title></title></head>\r\n<body>\r\n<ul>\r\n" ++
          (entries.map (listItemFor fs p)).flatten ++
          str "</ul>\r\n</body>\r\n</html>\r\n") ∧
    (∀ (fs : FileSystem) (p name : List Char),
      (isRegularFile fs (p ++ name) = true →
        listItemFor fs p name =
          str "\t<li><a href=\"" ++ name ++ str "\">" ++ name ++
            str "</a></li>\r\n") ∧
      (isRegularFile fs (p ++ name) = false →
        isDirectory fs (p ++ name) = true →
        listItemFor fs p name =
          str "\t<li><a href=\"" ++ name ++ str "/\">" ++ name ++
            str "/</a></li>\r\n") ∧
      (isRegularFile fs (p ++ name) = false →
        isDirectory fs (p ++ name) = false →
        listItemFor fs p name = [])) := by
  refine ⟨?_, ?_, ?_, ?_⟩
  · intro fs root req entries icontent mi hv hd he hi hlook hext
    have hout : outputOf (handleClient fs root req) =
        sendOK ++
          sendHeader fs
            (entryFullPath (root ++ secondToken req) (str "index.html")) ++
          icontent ++ str "\r\n" := by
      rw [handleClient_dir hv hd, sendHTML_index hd he hi]
      simp [outputOf, NetAction.data, sendFileActs, hlook, List.map_map,
        map_data_send, chunksOf_flatten, List.append_assoc]
    rw [hout]
    simp only [sendHeader, hext, fileSize_of_lookup hlook, sendOK]
  · intro fs root req entries hv hd he hni
    rw [handleClient_dir hv hd, sendHTML_no_index hd he hni]
    simp [outputOf, NetAction.data, List.append_assoc]
  · intro fs p entries
    rfl
  · intro fs p name
    refine ⟨?_, ?_, ?_⟩
    · intro h
      simp [listItemFor, h]
    · intro h₁ h₂
      simp [listItemFor, h₁, h₂]
    · intro h₁ h₂
      simp [listItemFor, h₁, h₂]

set_option maxRecDepth 10000 in
theorem dir_listing_and_index_witness :
    outputOf (handleClient subDirFs (str "r") (str "GET /sub/ HTTP/1.0")) =
        sendOK ++ str "Content-Type: text/html\r\nContent-Length: " ++
          natRepr (dirPageBody subDirFs
            (str "r" ++ secondToken (str "GET /sub/ HTTP/1.0"))
            [str "a.txt"]).length ++
          str "\r\n\r\n" ++
          dirPageBody subDirFs
            (str "r" ++ secondToken (str "GET /sub/ HTTP/1.0"))
            [str "a.txt"] ++ str "\r\n" ∧
      occurs (str "<a href=\"a.txt\">a.txt</a>")
        (outputOf (handleClient subDirFs (str "r")
          (str "GET /sub/ HTTP/1.0"))) = true ∧
      outputOf (handleClient indexDirFs (str "r")
          (str "GET /sub/ HTTP/1.0")) =
        sendOK ++ (str "Content-Type: " ++ contentTypeOf (str ".html") ++
          str "\r\n" ++ str "Content-Length: " ++
          natRepr (str "<h1>idx</h1>").length ++ str "\r\n" ++
          str "\r\n") ++ str "<h1>idx</h1>" ++ str "\r\n" :=
  ⟨dir_listing_and_index.2.1 subDirFs (str "r") (str "GET /sub/ HTTP/1.0")
      [str "a.txt"] (by decide) (by decide) (by decide) (by decide),
    by decide,
    dir_listing_and_index.1 indexDirFs (str "r") (str "GET /sub/ HTTP/1.0")
      [str "a.txt", str "index.html"] (str "<h1>idx</h1>") (str ".html")
      (by decide) (by decide) (by decide) (by decide) (by decide)
      (by decide)⟩


set_option maxRecDepth 10000 in
/-- C8 counterexample: with root `www`, `index.html` an existing regular
file of 42 bytes of plain text, the request `GET /index.html HTTP/1.0` is
answered with `Content-Type: text/html` (the `.html` match in the table),
not the `Content-Type: text/plain` the claim states. -/
theorem index_html_counterexample :
    (str "0123456789012345678901234567890123456789ab").length = 42 ∧
    lookupFile www42Fs
        (str "www" ++ secondToken (str "GET /index.html HTTP/1.0")) =
      some (str "0123456789012345678901234567890123456789ab") ∧
    occurs (str "Content-Type: text/plain")
        (outputOf (handleClient www42Fs (str "www")
          (str "GET /index.html HTTP/1.0"))) = false ∧
    occurs (str "Content-Type: text/html")
        (outputOf (handleClient www42Fs (str "www")
          (str "GET /index.html HTTP/1.0"))) = true := by
  decide

/-- C8 (amended): for the request `GET /index.html HTTP/1.0` where
index.html is an existing regular file of 42 bytes, under a root containing
no '.' character (so that the first `\.\w*` match of the resolved path is
`.html`), the response is the status line `HTTP/1.0 200 OK`, a
`Content-Type: text/html` header (per the table entry for html, not
text/plain), a `Content-Length: 42` header, a blank line, exactly those 42
bytes, then the 2-byte terminator. -/
theorem index_html_42_byte_response (fs : FileSystem)
    (root content : List Char)
    (hroot : root.all (fun c => !(c == '.')) = true)
    (hf : lookupFile fs (root ++ str "/index.html") = some content)
    (hd : isDirectory fs (root ++ str "/index.html") = false)
    (hlen : content.length = 42) :
    outputOf (handleClient fs root (str "GET /index.html HTTP/1.0")) =
      str "HTTP/1.0 200 OK\r\n" ++ str "Content-Type: text/html\r\n" ++
        str "Content-Length: 42\r\n" ++ str "\r\n" ++ content ++
        str "\r\n" := by
  have hst : secondToken (str "GET /index.html HTTP/1.0") =
      str "/index.html" := by decide
  have hf' : lookupFile fs
      (root ++ secondToken (str "GET /index.html HTTP/1.0")) =
      some content := by
    rw [hst]
    exact hf
  have hd' : isDirectory fs
      (root ++ secondToken (str "GET /index.html HTTP/1.0")) = false := by
    rw [hst]
    exact hd
  have hm : extMatch
      (root ++ secondToken (str "GET /index.html HTTP/1.0")) =
      some (str ".html") := by
    rw [hst, extMatch_append_no_dot hroot]
    decide
  rw [handleClient_file_output (by decide) hf' hd']
  simp only [sendHeader, hm, fileSize_of_lookup hf', hlen, sendOK]
  have hct : contentTypeOf (str ".html") = str "text/html" := by decide
  have h42 : natRepr 42 = str "42" := by decide
  rw [hct, h42]
  simp only [List.append_assoc]
  rfl

set_option maxRecDepth 10000 in
theorem index_html_42_byte_response_witness :
    outputOf (handleClient www42Fs (str "www")
        (str "GET /index.html HTTP/1.0")) =
      str "HTTP/1.0 200 OK\r\n" ++ str "Content-Type: text/html\r\n" ++
        str "Content-Length: 42\r\n" ++ str "\r\n" ++
        str "0123456789012345678901234567890123456789ab" ++ str "\r\n" :=
  index_html_42_byte_response www42Fs (str "www")
    (str "0123456789012345678901234567890123456789ab") (by decide)
    (by decide) (by decide) (by decide)


/-- C10: for every request resolving to an existing regular file whose full
resolved path contains no '.' character, the server sends the status line
`HTTP/1.0 200 OK` followed directly by the raw file bytes and the 2-byte
terminator, with no Content-Type header, no Content-Length header and no
blank line, because sendHeader returns without sending anything when its
extension regex finds no match. -/
theorem no_dot_no_header_block (fs : FileSystem)
    (root req content : List Char)
    (hv : validGET req = true)
    (hf : lookupFile fs (root ++ secondToken req) = some content)
    (hd : isDirectory fs (root ++ secondToken req) = false)
    (hdot : '.' ∉ root ++ secondToken req) :
    outputOf (handleClient fs root req) =
      str "HTTP/1.0 200 OK\r\n" ++ content ++ str "\r\n" := by
  have hall : (root ++ secondToken req).all (fun c => !(c == '.')) = true := by
    rw [List.all_eq_true]
    intro c hc
    simp only [Bool.not_eq_true', beq_eq_false_iff_ne]
    intro hceq
    exact hdot (hceq ▸ hc)
  have hm : extMatch (root ++ secondToken req) = none :=
    extMatch_none_of_no_dot hall
  rw [handleClient_file_output hv hf hd]
  simp only [sendHeader, hm, sendOK]
  simp [List.append_assoc]

theorem no_dot_no_header_block_witness :
    outputOf (handleClient noDotFs (str "r") (str "GET /data HTTP/1.0")) =
      str "HTTP/1.0 200 OK\r\n" ++ str "abc" ++ str "\r\n" :=
  no_dot_no_header_block noDotFs (str "r") (str "GET /data HTTP/1.0")
    (str "abc") (by decide) (by decide) (by decide) (by decide)
